import Mathlib

/-!
Verification development for the LCLS device-control layer
(`pcdsdevices/epics/valve.py`, `pcdsdevices/epics/attocube.py`).

The device classes under scrutiny are `Stopper`, `GateValve` and
`PPSStopper` (valve.py) and `EccBase` (attocube.py).  The base class
`PVStatePositioner` (module `pcdsdevices.state`) is not part of the
sources at hand; the state-resolution and move machinery it provides is
modelled from the specification, and every such definition is marked
`Modelled from the spec:` in its doc comment.
-/

/-- Semantic device state labels.  For `Stopper`/`GateValve` the label set
is IN, OUT and the implicit UNKNOWN fallback. -/
inductive StateLabel
  | IN
  | OUT
  | UNKNOWN
  deriving DecidableEq, Repr

/-- Result of looking up one signal's raw value in its state-logic table:
either a semantic label or the DEFER marker (spelled `'defer'` in
`Stopper._state_logic`). -/
inductive LookupResult
  | defer
  | label (l : StateLabel)
  deriving DecidableEq, Repr

/-- `Stopper._state_logic['open_limit']` (valve.py lines 56-57):
raw value 0 maps to `'defer'`, raw value 1 maps to `'OUT'`; any other raw
value has no table entry. -/
def stopper_open_limit_logic : Nat → Option LookupResult
  | 0 => some .defer
  | 1 => some (.label .OUT)
  | _ => none

/-- `Stopper._state_logic['closed_limit']` (valve.py lines 58-59):
raw value 0 maps to `'defer'`, raw value 1 maps to `'IN'`; any other raw
value has no table entry. -/
def stopper_closed_limit_logic : Nat → Option LookupResult
  | 0 => some .defer
  | 1 => some (.label .IN)
  | _ => none

/-- Modelled from the spec: a raw value with no table entry falls back to
the UNKNOWN label rather than failing (spec section 3, SignalStateTable
invariant).  The lookup machinery lives in `pcdsdevices.state`, which is
not among the sources. -/
def lookupRaw (table : Nat → Option LookupResult) (v : Nat) : LookupResult :=
  (table v).getD (.label .UNKNOWN)

/-- The distinct non-DEFER labels among the per-signal lookup results. -/
def nonDeferLabels (results : List LookupResult) : List StateLabel :=
  (results.filterMap fun r => match r with
    | .defer => none
    | .label l => some l).dedup

/-- Modelled from the spec: the State Resolver of `PVStatePositioner`
(module `pcdsdevices.state`, not among the sources).  Spec section 4.1:
discard DEFER entries; zero labels remain, result UNKNOWN; exactly one
distinct label remains, that label is the result; more than one distinct
label remains, result UNKNOWN. -/
def resolve (results : List LookupResult) : StateLabel :=
  match nonDeferLabels results with
  | [] => .UNKNOWN
  | [l] => l
  | _ => .UNKNOWN

/-- The aggregate state of a `Stopper` as a function of the raw values of
its two contributing signals, combining the source's `_state_logic` table
with the spec-modelled resolver. -/
def stopper_resolve (open_limit closed_limit : Nat) : StateLabel :=
  resolve [lookupRaw stopper_open_limit_logic open_limit,
           lookupRaw stopper_closed_limit_logic closed_limit]

example : stopper_resolve 1 0 = .OUT := by decide
example : stopper_resolve 0 1 = .IN := by decide
example : stopper_resolve 1 1 = .UNKNOWN := by decide
example : stopper_resolve 0 0 = .UNKNOWN := by decide

/-- `Commands.close_valve` (valve.py line 21): command alias with value 0. -/
def Commands.close_valve : Nat := 0

/-- `Commands.open_valve` (valve.py line 22): command alias with value 1. -/
def Commands.open_valve : Nat := 1

/-- One value written to one command signal, identified by its component
attribute name (`command` for both `Stopper`, PV suffix `:CMD`, and
`GateValve`, PV suffix `:OPN_SW`). -/
structure Write where
  signal : String
  value : Nat
  deriving DecidableEq, Repr

/-- `Stopper._do_move` (valve.py lines 61-65), shared by `GateValve` through
inheritance: a move to IN puts `close_valve` on the command signal, a move
to OUT puts `open_valve`; any other state falls through both branches and
writes nothing.  `put` is fire-and-forget: the emitted write carries no
acknowledgement. -/
def _do_move : StateLabel → List Write
  | .IN => [⟨"command", Commands.close_valve⟩]
  | .OUT => [⟨"command", Commands.open_valve⟩]
  | .UNKNOWN => []

/-- Whether a target label has a Command Dispatcher entry, read off the
branches of `Stopper._do_move`: only IN and OUT are commandable. -/
def commandEntries : StateLabel → Bool
  | .IN => true
  | .OUT => true
  | .UNKNOWN => false

/-- Errors a move request can raise synchronously.  `interlockError` embeds
the `InterlockError` class of valve.py (line 25); `unreachableState` is the
spec's name for a move to a target with no dispatcher entry. -/
inductive MoveError
  | unreachableState
  | interlockError
  deriving DecidableEq, Repr

/-- The PendingMove record: target label and the timeout the caller passed
to the move request. -/
structure PendingMove where
  target : StateLabel
  timeout : Option Nat
  deriving DecidableEq, Repr

deriving instance DecidableEq for Except

/-- Outcome of one synchronous move call: the command-signal writes it
issued, and either a created PendingMove (the completion handle the caller
receives) or the error the call raised.  A raised error means no handle
was returned to the caller. -/
structure MoveOutcome where
  writes : List Write
  result : Except MoveError PendingMove
  deriving DecidableEq, Repr

/-- Modelled from the spec: `PVStatePositioner.move` (module
`pcdsdevices.state`, not among the sources).  Spec sections 4.2 and 7: a
target with no Command Dispatcher entry fails synchronously with
`UnreachableState`, no command issued and no PendingMove created;
otherwise the dispatcher writes of `_do_move` are issued and a
PendingMove is created for the caller. -/
def stopperMove (target : StateLabel) (_wait : Bool) (timeout : Option Nat) :
    MoveOutcome :=
  if commandEntries target then ⟨_do_move target, .ok ⟨target, timeout⟩⟩
  else ⟨[], .error .unreachableState⟩

/-- `Stopper.open` (valve.py lines 67-84): `self.move('OUT', wait, timeout)`. -/
def Stopper.open' (wait : Bool) (timeout : Option Nat) : MoveOutcome :=
  stopperMove .OUT wait timeout

/-- `Stopper.close` (valve.py lines 86-103): `self.move('IN', wait, timeout)`. -/
def Stopper.close (wait : Bool) (timeout : Option Nat) : MoveOutcome :=
  stopperMove .IN wait timeout

/-- `Stopper.insert` (valve.py lines 106-110): `return self.close(*args, **kwargs)`. -/
def Stopper.insert (wait : Bool) (timeout : Option Nat) : MoveOutcome :=
  Stopper.close wait timeout

/-- `Stopper.remove` (valve.py lines 112-116): `return self.open(*args, **kwargs)`. -/
def Stopper.remove (wait : Bool) (timeout : Option Nat) : MoveOutcome :=
  Stopper.open' wait timeout

/-- The signal state a `GateValve` instance reads: the raw value of its
`interlock` signal (PV suffix `:OPN_OK`). -/
structure GateValveS where
  interlock : Nat
  deriving DecidableEq, Repr

/-- `GateValve.interlocked` (valve.py lines 152-158):
`bool(self.interlock.get())`, truthy iff the raw value is nonzero. -/
def interlocked (dev : GateValveS) : Bool :=
  dev.interlock != 0

/-- `GateValve.open` (valve.py lines 160-185): if `self.interlocked`, raise
`InterlockError` before anything is written; otherwise
`super().open(wait, timeout)`, that is `Stopper.open`. -/
def GateValve.open' (dev : GateValveS) (wait : Bool) (timeout : Option Nat) :
    MoveOutcome :=
  if interlocked dev then ⟨[], .error .interlockError⟩
  else Stopper.open' wait timeout

/-- `GateValve.close`: not overridden in valve.py, so it is exactly the
inherited `Stopper.close` — `self.move('IN', wait, timeout)` with no
interlock consultation.  The device state is received but unused. -/
def GateValve.close (_dev : GateValveS) (wait : Bool) (timeout : Option Nat) :
    MoveOutcome :=
  Stopper.close wait timeout

example : GateValve.open' ⟨1⟩ false none = ⟨[], .error .interlockError⟩ := by decide
example : (GateValve.close ⟨1⟩ false none).writes = [⟨"command", 0⟩] := by decide
example : Stopper.open' false none = ⟨[⟨"command", 1⟩], .ok ⟨.OUT, none⟩⟩ := by decide
example : stopperMove .UNKNOWN false none = ⟨[], .error .unreachableState⟩ := by decide

/-- Result slot of a completion handle: still pending, or one of the
terminal outcomes of spec section 4.3. -/
inductive HandleResult
  | pending
  | done
  | timedOut
  | interlockTripped
  | cancelled
  deriving DecidableEq, Repr

/-- Completion Tracker bookkeeping for one device: the result slots of the
completion handles it has handed out, in request order.  At most the last
one may be pending. -/
structure TrackerState where
  handles : List HandleResult
  deriving DecidableEq, Repr

/-- Modelled from the spec: the Completion Tracker's concurrency policy
(spec sections 4.3 and 5, module `pcdsdevices.state` not among the
sources).  A new move request supersedes any active PendingMove: the old
pending handle is transitioned to CANCELLED and its waiters released
before the new request's pending handle is created. -/
def requestMove (st : TrackerState) : TrackerState :=
  ⟨(st.handles.map fun h => if h = .pending then .cancelled else h) ++ [.pending]⟩

/-- Modelled from the spec: terminal resolution of the active PendingMove
(spec section 4.3).  The result slot is write-once: only a pending handle
can be set; handles already in a terminal state are untouched. -/
def resolveActive (st : TrackerState) (r : HandleResult) : TrackerState :=
  ⟨st.handles.map fun h => if h = .pending then r else h⟩

/-- The signal-facing state of one `PPSStopper` instance: the strings stored
by `__init__`, the `_has_subscribed` flag, the number of times
`_on_state_change` has been subscribed to the `summary` signal, and the
caller callbacks handed to `super().subscribe` as
(callback id, event_type, run) triples, in registration order. -/
structure PPSStopperS where
  in_state : String
  out_state : String
  has_subscribed : Bool
  summary_subs : Nat
  device_subs : List (Nat × Option String × Bool)
  deriving DecidableEq, Repr

/-- `PPSStopper.__init__` (valve.py lines 221-235): stores the state
strings and sets `_has_subscribed = False`; no subscription to `summary`
exists yet and no caller callback is registered yet. -/
def PPSStopper.init (in_state out_state : String) : PPSStopperS :=
  ⟨in_state, out_state, false, 0, []⟩

/-- `PPSStopper.subscribe` (valve.py lines 251-269): if `_has_subscribed`
is unset, subscribe `_on_state_change` to the `summary` signal and set the
flag; then always register the caller's callback via
`super().subscribe(cb, event_type, run)`. -/
def PPSStopper.subscribe (st : PPSStopperS) (call : Nat × Option String × Bool) :
    PPSStopperS :=
  let st' := if st.has_subscribed then st
             else ⟨st.in_state, st.out_state, true, st.summary_subs + 1, st.device_subs⟩
  ⟨st'.in_state, st'.out_state, st'.has_subscribed, st'.summary_subs,
   st'.device_subs ++ [call]⟩

example :
    ([(3, none, true), (4, none, false), (5, some "s", true)].foldl
      PPSStopper.subscribe (PPSStopper.init "IN" "OUT")).summary_subs = 1 := by
  decide

/-- The observable state of one `EccBase` motor instance: its current
position readback. -/
structure EccMotorS where
  position : Int
  deriving DecidableEq, Repr

/-- Python runtime errors relevant to `EccBase.moverel`. -/
inductive PyError
  | nameError (name : String)
  deriving DecidableEq, Repr

/-- The names bound in the local scope of `EccBase.moverel` when it is
called as `motor.moverel(...)` (attocube.py line 56): the def's parameter
list is `(rel_position, *args, **kwargs)` — `self` is not among the
parameters, so the bound instance lands in `rel_position`. -/
def moverel_local_scope : List String :=
  ["rel_position", "args", "kwargs"]

/-- The names bound at module level in attocube.py (imports, the module
logger and the classes defined there); no global named `self` exists. -/
def attocube_module_scope : List String :=
  ["logging", "np", "Device", "Component", "EpicsMotor", "EpicsSignal",
   "EpicsSignalRO", "logger", "EccController", "EccBase", "TranslationEcc",
   "GoniometerEcc", "DiodeEcc"]

/-- Python name resolution inside `EccBase.moverel`'s body: a name is found
if it is bound in the local scope or at module level (there is no
enclosing function scope, and `self` is not a builtin). -/
def moverelLookup (n : String) : Except PyError Unit :=
  if n ∈ moverel_local_scope ∨ n ∈ attocube_module_scope then .ok ()
  else .error (.nameError n)

/-- What one `moverel` call produced: the motor-signal writes it issued and
either a returned status-object id or the Python error it raised. -/
structure MoverelResult where
  writes : List Write
  result : Except PyError Nat
  deriving DecidableEq, Repr

/-- `EccBase.moverel` (attocube.py lines 56-91): the body is
`return self.move(rel_position + self.position, *args, **kwargs)`, whose
evaluation begins by resolving the name `self`.  The rest of the body is
abstracted as `proceed`, entered only if that resolution succeeds; an
unresolved name raises `NameError` with no write issued and no status
object returned. -/
def EccBase.moverel (_dev : EccMotorS) (proceed : Unit → MoverelResult) :
    MoverelResult :=
  match moverelLookup "self" with
  | .error e => ⟨[], .error e⟩
  | .ok u => proceed u

example :
    EccBase.moverel ⟨5⟩ (fun _ => ⟨[⟨"user_setpoint", 9⟩], .ok 0⟩)
      = ⟨[], .error (.nameError "self")⟩ := by decide

/-- C1: whenever exactly one distinct non-DEFER label remains after table
lookup, the State Resolver returns that label; in particular, for the
Stopper table, open_limit=1 with closed_limit=0 resolves to OUT and
open_limit=0 with closed_limit=1 resolves to IN. -/
theorem resolve_single_label (results : List LookupResult) (l : StateLabel)
    (h : nonDeferLabels results = [l]) :
    resolve results = l
      ∧ stopper_resolve 1 0 = .OUT ∧ stopper_resolve 0 1 = .IN := by
  refine ⟨?_, by decide, by decide⟩
  unfold resolve
  rw [h]

theorem resolve_single_label_witness :
    nonDeferLabels [LookupResult.defer, LookupResult.label .OUT] = [.OUT]
      ∧ resolve [LookupResult.defer, LookupResult.label .OUT] = .OUT :=
  ⟨by decide, (resolve_single_label [.defer, .label .OUT] .OUT (by decide)).1⟩

/-- C2: whenever two or more distinct non-UNKNOWN labels remain after
lookup, or every contributing signal defers, the State Resolver returns
UNKNOWN; in particular, for the Stopper table, open_limit=1 with
closed_limit=1 and open_limit=0 with closed_limit=0 both resolve to
UNKNOWN, and no conflicting label is silently picked. -/
theorem resolve_conflict_or_defer_unknown (results : List LookupResult)
    (l1 l2 : StateLabel)
    (h1 : l1 ∈ nonDeferLabels results) (h2 : l2 ∈ nonDeferLabels results)
    (hne : l1 ≠ l2) (hu1 : l1 ≠ .UNKNOWN) (hu2 : l2 ≠ .UNKNOWN) :
    resolve results = .UNKNOWN
      ∧ (∀ rs : List LookupResult, (∀ r ∈ rs, r = .defer) →
          resolve rs = .UNKNOWN)
      ∧ stopper_resolve 1 1 = .UNKNOWN ∧ stopper_resolve 0 0 = .UNKNOWN := by
  refine ⟨?_, ?_, by decide, by decide⟩
  · unfold resolve
    rcases hls : nonDeferLabels results with _ | ⟨a, _ | ⟨b, t⟩⟩
    · rfl
    · rw [hls] at h1 h2
      rw [List.mem_singleton] at h1 h2
      exact absurd (h1.trans h2.symm) hne
    · rfl
  · intro rs hall
    unfold resolve nonDeferLabels
    have hnil : (rs.filterMap fun r => match r with
        | .defer => none
        | .label l => some l) = [] := by
      rw [List.filterMap_eq_nil_iff]
      intro a ha
      rw [hall a ha]
    rw [hnil]
    rfl

theorem resolve_conflict_witness :
    resolve [LookupResult.label .IN, LookupResult.label .OUT] = .UNKNOWN :=
  (resolve_conflict_or_defer_unknown [.label .IN, .label .OUT] .IN .OUT
    (by decide) (by decide) (by decide) (by decide) (by decide)).1

/-- C3 counterexample: with the interlock tripped (raw 1), a request to
open the GateValve writes nothing, but the failure is not surfaced via a
returned completion handle: the call raises `InterlockError`
synchronously, so its result is never `ok` with a PendingMove. -/
theorem gatevalve_open_interlocked_no_handle_cx :
    interlocked ⟨1⟩ = true
      ∧ (GateValve.open' ⟨1⟩ false none).writes = []
      ∧ (GateValve.open' ⟨1⟩ false none).result
          = Except.error MoveError.interlockError
      ∧ (GateValve.open' ⟨1⟩ false none).result.isOk = false := by
  decide

/-- C3 amended: if a GateValve's interlock is tripped when open is
requested, no value is written to the command signal and the call raises
`InterlockError` synchronously — no completion handle is returned — never
a silent no-op. -/
theorem gatevalve_open_interlocked_raises (dev : GateValveS) (w : Bool)
    (t : Option Nat) (h : interlocked dev = true) :
    GateValve.open' dev w t = ⟨[], .error .interlockError⟩ := by
  simp [GateValve.open', h]

theorem gatevalve_open_interlocked_raises_witness :
    interlocked ⟨1⟩ = true
      ∧ GateValve.open' ⟨1⟩ true (some 5) = ⟨[], .error .interlockError⟩ :=
  ⟨by decide, gatevalve_open_interlocked_raises ⟨1⟩ true (some 5) (by decide)⟩

/-- C4 counterexample: with the interlock tripped (raw 1), a move to IN
(close) on a GateValve still writes the close command — the interlock is
not evaluated for that target, refuting the claim that every move request
checks the interlock and writes nothing when it is tripped. -/
theorem gatevalve_close_ignores_interlock_cx :
    interlocked ⟨1⟩ = true
      ∧ (GateValve.close ⟨1⟩ false none).writes
          = [⟨"command", Commands.close_valve⟩]
      ∧ (GateValve.close ⟨1⟩ false none).writes ≠ [] := by
  decide

/-- C4 amended: only a move to OUT (open) evaluates the GateValve's
interlock before issuing a command; with the interlock tripped, an open
request writes nothing while a move to IN (the inherited close) still
writes the close command without consulting the interlock. -/
theorem gatevalve_interlock_only_on_open (dev : GateValveS) (w : Bool)
    (t : Option Nat) (h : interlocked dev = true) :
    (GateValve.open' dev w t).writes = []
      ∧ (GateValve.close dev w t).writes
          = [⟨"command", Commands.close_valve⟩] := by
  constructor
  · simp [GateValve.open', h]
  · rfl

theorem gatevalve_interlock_only_on_open_witness :
    interlocked ⟨1⟩ = true
      ∧ (GateValve.open' ⟨1⟩ false none).writes = []
      ∧ (GateValve.close ⟨1⟩ false none).writes
          = [⟨"command", Commands.close_valve⟩] :=
  ⟨by decide, gatevalve_interlock_only_on_open ⟨1⟩ false none (by decide)⟩

/-- C5: a move request whose target has no Command Dispatcher entry (any
label other than IN and OUT, here UNKNOWN) fails synchronously with
`UnreachableState`: no value is written to any command signal and no
PendingMove is created. -/
theorem move_unreachable_state (target : StateLabel) (w : Bool)
    (t : Option Nat) (h : target ≠ .IN ∧ target ≠ .OUT) :
    commandEntries target = false
      ∧ (stopperMove target w t).writes = []
      ∧ (stopperMove target w t).result = .error .unreachableState
      ∧ ∀ pm : PendingMove, (stopperMove target w t).result ≠ .ok pm := by
  obtain ⟨h1, h2⟩ := h
  cases target with
  | IN => exact absurd rfl h1
  | OUT => exact absurd rfl h2
  | UNKNOWN => exact ⟨rfl, rfl, rfl, fun pm hpm => by cases hpm⟩

theorem move_unreachable_state_witness :
    (StateLabel.UNKNOWN ≠ StateLabel.IN ∧ StateLabel.UNKNOWN ≠ StateLabel.OUT)
      ∧ (stopperMove .UNKNOWN false none).result = .error .unreachableState :=
  ⟨⟨by decide, by decide⟩,
   (move_unreachable_state .UNKNOWN false none ⟨by decide, by decide⟩).2.2.1⟩

/-- C6: for Stopper and GateValve, dispatching a move to IN writes exactly
the single value `close_valve` (0) to the command signal and a move to OUT
writes exactly the single value `open_valve` (1); no other signal is
written.  The write carries no acknowledgement (`put` is fire-and-forget
in `_do_move`). -/
theorem dispatch_writes_exact (w : Bool) (t : Option Nat) (dev : GateValveS) :
    (stopperMove .IN w t).writes = [⟨"command", Commands.close_valve⟩]
      ∧ (stopperMove .OUT w t).writes = [⟨"command", Commands.open_valve⟩]
      ∧ Commands.close_valve = 0 ∧ Commands.open_valve = 1
      ∧ (GateValve.close dev w t).writes = [⟨"command", Commands.close_valve⟩]
      ∧ (GateValve.open' ⟨0⟩ w t).writes = [⟨"command", Commands.open_valve⟩] :=
  ⟨rfl, rfl, rfl, rfl, rfl, rfl⟩

/-- C7: a second move request while one PendingMove is active supersedes
it: the first handle is resolved CANCELLED (never success) before the
second request's pending handle exists, and any subsequent terminal
resolution reaches only the second handle, the first staying CANCELLED. -/
theorem second_move_supersedes :
    (requestMove (requestMove ⟨[]⟩)).handles = [.cancelled, .pending]
      ∧ (∀ r : HandleResult,
          (resolveActive (requestMove (requestMove ⟨[]⟩)) r).handles
            = [.cancelled, r])
      ∧ HandleResult.cancelled ≠ HandleResult.done :=
  ⟨rfl, fun _ => rfl, by decide⟩

/-- C8: the lightpath aliases are extensionally the underlying operations:
for every argument list, `Stopper.insert` returns exactly
`Stopper.close` (a move to IN) and `Stopper.remove` returns exactly
`Stopper.open` (a move to OUT). -/
theorem insert_remove_aliases (w : Bool) (t : Option Nat) :
    Stopper.insert w t = Stopper.close w t
      ∧ Stopper.remove w t = Stopper.open' w t :=
  ⟨rfl, rfl⟩

lemma subscribe_device_subs_step (st : PPSStopperS)
    (c : Nat × Option String × Bool) :
    (PPSStopper.subscribe st c).device_subs = st.device_subs ++ [c] := by
  unfold PPSStopper.subscribe
  cases hs : st.has_subscribed <;> simp [hs]

lemma subscribe_device_subs (cbs : List (Nat × Option String × Bool))
    (st : PPSStopperS) :
    (cbs.foldl PPSStopper.subscribe st).device_subs = st.device_subs ++ cbs := by
  induction cbs generalizing st with
  | nil => simp
  | cons c cs ih =>
    rw [List.foldl_cons, ih, subscribe_device_subs_step]
    simp

lemma subscribe_summary_le_one (cbs : List (Nat × Option String × Bool))
    (st : PPSStopperS) (h1 : st.summary_subs ≤ 1)
    (h2 : st.has_subscribed = false → st.summary_subs = 0) :
    (cbs.foldl PPSStopper.subscribe st).summary_subs ≤ 1 := by
  induction cbs generalizing st with
  | nil => exact h1
  | cons c cs ih =>
    rw [List.foldl_cons]
    apply ih
    · unfold PPSStopper.subscribe
      cases hs : st.has_subscribed
      · simp [hs, h2 hs]
      · simpa [hs] using h1
    · unfold PPSStopper.subscribe
      cases hs : st.has_subscribed <;> simp [hs]

/-- C9: from a freshly constructed PPSStopper, any sequence of `subscribe`
calls installs the internal `_on_state_change` subscription on the summary
signal at most once (guarded by `_has_subscribed`), while every call still
registers the caller's callback with the device, in order. -/
theorem subscribe_internal_once (in_s out_s : String)
    (calls : List (Nat × Option String × Bool)) :
    ((calls.foldl PPSStopper.subscribe (PPSStopper.init in_s out_s)).summary_subs
        ≤ 1)
      ∧ ((calls.foldl PPSStopper.subscribe (PPSStopper.init in_s out_s)).device_subs
          = calls) := by
  constructor
  · exact subscribe_summary_le_one calls _ (by simp [PPSStopper.init])
      (fun _ => rfl)
  · rw [subscribe_device_subs]
    rfl

/-- C10: every invocation of `EccBase.moverel` raises `NameError` on the
name `self` before any motion command is issued — the def's parameter list
omits `self`, so the instance is bound to `rel_position` and `self` is
bound in no scope the body can see.  Whatever the rest of the body would
do (`proceed`), no motor signal is written and no status object is
returned. -/
theorem moverel_name_error (dev : EccMotorS) (proceed : Unit → MoverelResult) :
    EccBase.moverel dev proceed = ⟨[], .error (.nameError "self")⟩
      ∧ (EccBase.moverel dev proceed).writes = []
      ∧ (EccBase.moverel dev proceed).result.isOk = false :=
  ⟨rfl, rfl, rfl⟩
